import Mathlib

/-!
Verification development for the gridpack configuration manager
(src/gridpack_manager.py). The Python module is shallowly embedded:
the configuration document becomes a structure of optional sections
(an absent field models an absent JSON key), the filesystem becomes an
explicit value threaded through the effectful operations, fatal
terminations (sys.exit, uncaught exceptions) become Except.error, and
every function mirrors the statement order of its Python counterpart.
-/

namespace Gridpack

/-- Model of Python str.replace for a non-empty pattern: scan left to
right, replace each leftmost non-overlapping occurrence. Structural
recursion on a fuel argument; the fuel is initialised to the length of
the scanned list, which one character of progress per step can never
exhaust, so the bare fuel-zero arm is unreachable. -/
def replaceAux (pat repl : List Char) : Nat → List Char → List Char
  | _, [] => []
  | 0, l => l
  | fuel + 1, c :: cs =>
    if !pat.isEmpty && pat.isPrefixOf (c :: cs) then
      repl ++ replaceAux pat repl fuel ((c :: cs).drop pat.length)
    else
      c :: replaceAux pat repl fuel cs

/-- content.replace(pat, repl) from the Python source (the source only
ever calls it with the non-empty patterns "skeleton" and "$process"). -/
def pyReplace (s pat repl : String) : String :=
  String.mk (replaceAux pat.data repl.data s.data.length s.data)

/-- One generator entry of the configuration: presence of the
description key and of the skeleton_files key (config["generators"]). -/
structure GenInfo where
  description : Option String
  skeleton_files : Option (List String)
deriving DecidableEq

/-- One campaign entry of the configuration (config["campaigns"]). -/
structure CampInfo where
  tune : Option String
  beam : Option String
deriving DecidableEq

/-- config["dataset_schema"]: the two attribute maps, kept as their key
lists (check_cards only ever reads .keys()). -/
structure DatasetSchema where
  mandatory_attributes : Option (List String)
  optional_attributes : Option (List String)
deriving DecidableEq

/-- The loaded configuration document. Each top-level JSON key becomes
an Option field; none models the key being absent. Mapping-valued
sections are association lists in document order. -/
structure Config where
  paths : Option (List (String × String))
  generators : Option (List (String × GenInfo))
  campaigns : Option (List (String × CampInfo))
  physics_processes : Option (List String)
  tunes : Option (List (String × String))
  parton_showers : Option (List (String × String))
  dataset_schema : Option DatasetSchema
deriving DecidableEq

/-- Model of the filesystem touched by make_dirs and make_cards: the
set of directory paths and a map from file path to content (most
recent write first). Creation of intermediate parent directories by
os.makedirs is not tracked: no function ever queries a parent of a
path it created. -/
structure FS where
  dirs : List String
  files : List (String × String)
deriving DecidableEq

/-- os.path.join for the relative component paths used here. -/
def pjoin (a b : String) : String := a ++ "/" ++ b

/-- os.path.exists on the FS model. -/
def fsExists (fs : FS) (p : String) : Bool :=
  fs.dirs.contains p || (fs.files.map Prod.fst).contains p

/-- os.makedirs(p, exist_ok=True) on the FS model. -/
def fsMkdir (fs : FS) (p : String) : FS := { fs with dirs := p :: fs.dirs }

/-- open(p).read() on the FS model: the most recent content written. -/
def fsRead (fs : FS) (p : String) : Option String := List.lookup p fs.files

/-- open(p, "w").write(content) on the FS model. -/
def fsWrite (fs : FS) (p content : String) : FS :=
  { fs with files := (p, content) :: fs.files }

/-- config["paths"][k]: raises KeyError when paths or the key is absent. -/
def getPath (c : Config) (k : String) : Except String String :=
  match c.paths with
  | none => Except.error "KeyError: paths"
  | some ps =>
    match List.lookup k ps with
    | none => Except.error ("KeyError: " ++ k)
    | some v => Except.ok v

/-- load_config: the argument models what is on disk at the config
path: none when the file does not exist, some none when it exists but
is not valid JSON, some (some c) when it parses to the mapping c. The
first error is the sys.exit message, the second the uncaught
json.JSONDecodeError that terminates the interpreter. -/
def load_config (onDisk : Option (Option Config)) : Except String Config :=
  match onDisk with
  | none => Except.error "ERROR: Config file not found"
  | some none => Except.error "json.JSONDecodeError: Expecting value"
  | some (some c) => Except.ok c

/-- The required top-level keys loop of validate_config, unrolled in
list order [paths, generators, campaigns, tunes, parton_showers]. -/
def requiredKeyErrors (c : Config) : List String :=
  (if c.paths.isSome then [] else ["Missing required key: paths"]) ++
  (if c.generators.isSome then [] else ["Missing required key: generators"]) ++
  (if c.campaigns.isSome then [] else ["Missing required key: campaigns"]) ++
  (if c.tunes.isSome then [] else ["Missing required key: tunes"]) ++
  (if c.parton_showers.isSome then [] else ["Missing required key: parton_showers"])

/-- required_paths of validate_config, in source order. -/
def requiredPathKeys : List String :=
  ["cards_dir", "campaigns_dir", "fragments_dir", "skeletons_dir", "eos_base_path"]

/-- The required path keys loop of validate_config: only runs when the
paths section is present. -/
def pathErrors (c : Config) : List String :=
  match c.paths with
  | none => []
  | some ps =>
    (requiredPathKeys.filter (fun k => (List.lookup k ps).isNone)).map
      (fun k => "Missing required path: " ++ k)

/-- The dataset_schema block of validate_config. -/
def schemaErrors (c : Config) : List String :=
  match c.dataset_schema with
  | some s =>
    (if s.mandatory_attributes.isSome then []
     else ["dataset_schema missing mandatory_attributes"]) ++
    (if s.optional_attributes.isSome then []
     else ["dataset_schema missing optional_attributes"])
  | none => ["Missing dataset_schema in config"]

/-- The generator description warnings of validate_config. -/
def generatorWarnings (c : Config) : List String :=
  match c.generators with
  | none => []
  | some gens =>
    (gens.filter (fun g => g.2.description.isNone)).map
      (fun g => "Generator " ++ g.1 ++ " missing description")

/-- The campaign tune/beam warnings of validate_config. -/
def campaignWarnings (c : Config) : List String :=
  match c.campaigns with
  | none => []
  | some camps =>
    camps.flatMap (fun cp =>
      (if cp.2.tune.isSome then [] else ["Campaign " ++ cp.1 ++ " missing tune"]) ++
      (if cp.2.beam.isSome then [] else ["Campaign " ++ cp.1 ++ " missing beam energy"]))

/-- validate_config: the accumulated (errors, warnings) lists in the
order the source appends them. -/
def validate_config (c : Config) : List String × List String :=
  (requiredKeyErrors c ++ pathErrors c ++ schemaErrors c,
   generatorWarnings c ++ campaignWarnings c)

/-- The boolean validate_config returns: len(errors) == 0. -/
def validate_config_ok (c : Config) : Bool :=
  ((validate_config c).1.length == 0)

/-- The full list of EOS target paths make_dirs visits, in the loop
nesting order of the source (campaign, then generator, then process). -/
def mdTargets (base : String) (camps gens procs : List String) : List String :=
  camps.flatMap (fun campaign =>
    gens.flatMap (fun generator =>
      procs.map (fun process =>
        pjoin (pjoin (pjoin base campaign) generator) process)))

/-- One iteration of the make_dirs loop body over state (fs, created). -/
def mdStep (doit : Bool) (st : FS × List String) (p : String) : FS × List String :=
  if fsExists st.1 p then st
  else ((if doit then fsMkdir st.1 p else st.1), st.2 ++ [p])

/-- make_dirs: returns the resulting filesystem together with the
created list (or the KeyError that escaped before the loop). -/
def make_dirs (c : Config) (fs : FS) (doit : Bool) :
    FS × Except String (List String) :=
  match getPath c "eos_base_path", c.generators, c.campaigns, c.physics_processes with
  | Except.ok base, some gens, some camps, some procs =>
    let st := (mdTargets base (camps.map Prod.fst) (gens.map Prod.fst) procs).foldl
      (mdStep doit) (fs, [])
    (st.1, Except.ok st.2)
  | Except.error e, _, _, _ => (fs, Except.error e)
  | _, none, _, _ => (fs, Except.error "KeyError: generators")
  | _, _, none, _ => (fs, Except.error "KeyError: campaigns")
  | _, _, _, none => (fs, Except.error "KeyError: physics_processes")

/-- The closing report of make_dirs. -/
def mdReport (created : List String) (doit : Bool) : List String :=
  if created.isEmpty then ["All directories already exist."]
  else if doit then []
  else ["Run with --doit to create " ++ toString created.length ++ " directories."]

/-- skel_file.replace("skeleton", dataset_name): the destination file
name computed by make_cards. -/
def dstName (skelFile dataset : String) : String :=
  pyReplace skelFile "skeleton" dataset

/-- The write loop of make_cards under --doit: read each skeleton
source, substitute the $process placeholder, write the destination.
A missing source is the uncaught FileNotFoundError of open(src). -/
def mcWrites (skeletonPath targetPath dataset : String) :
    List String → FS → FS × Except String Unit
  | [], fs => (fs, Except.ok ())
  | sf :: rest, fs =>
    match fsRead fs (pjoin skeletonPath sf) with
    | none => (fs, Except.error ("FileNotFoundError: " ++ pjoin skeletonPath sf))
    | some content =>
      mcWrites skeletonPath targetPath dataset rest
        (fsWrite fs (pjoin targetPath (dstName sf dataset))
          (pyReplace content "$process" dataset))

/-- make_cards: mirrors the source statement order: unknown-generator
check, path lookups, existing-target check, missing-skeleton check,
the printed plan, then (under --doit) the directory creation and the
write loop. On an error the filesystem reached so far is returned
unchanged alongside the message. -/
def make_cards (c : Config) (fs : FS) (generator process dataset : String)
    (doit : Bool) : FS × Except String (List (String × String)) :=
  match c.generators with
  | none => (fs, Except.error "KeyError: generators")
  | some gens =>
    match List.lookup generator gens with
    | none => (fs, Except.error ("ERROR: Unknown generator: " ++ generator))
    | some ginfo =>
      match getPath c "cards_dir" with
      | Except.error e => (fs, Except.error e)
      | Except.ok cards_dir =>
        match getPath c "skeletons_dir" with
        | Except.error e => (fs, Except.error e)
        | Except.ok skeletons_dir =>
          let target_path := pjoin (pjoin (pjoin cards_dir generator) process) dataset
          let skeleton_path := pjoin skeletons_dir generator
          if fsExists fs target_path then
            (fs, Except.error ("ERROR: Path already exists: " ++ target_path))
          else if !(fsExists fs skeleton_path) then
            (fs, Except.error ("ERROR: Skeleton path not found: " ++ skeleton_path))
          else
            let skeleton_files := ginfo.skeleton_files.getD []
            let plan := skeleton_files.map (fun sf => (sf, dstName sf dataset))
            if doit then
              match mcWrites skeleton_path target_path dataset skeleton_files
                  (fsMkdir fs target_path) with
              | (fs2, Except.ok _) => (fs2, Except.ok plan)
              | (fs2, Except.error e) => (fs2, Except.error e)
            else
              (fs, Except.ok plan)

/-- A node of the card directory tree under cards_dir. A file carries
the outcome of json.load on it: none when the content is not valid
JSON, some attrs when it parses to an object with key list attrs.
Directory children are association lists in os.listdir order. -/
inductive FsNode where
  | file (parsed : Option (List String))
  | dir (children : List (String × FsNode))

/-- The per-card schema test of check_cards on a parsed attribute set:
(error increment, missing keys, unknown keys). Only a non-empty
missing set contributes to the error count; unknown keys are printed
as a warning only. -/
def checkParsedCard (mand opt attrs : List String) :
    Nat × List String × List String :=
  let missing := mand.filter (fun k => !(attrs.contains k))
  let unknown := attrs.filter (fun k => !(mand.contains k) && !(opt.contains k))
  ((if missing.isEmpty then 0 else 1), missing, unknown)

/-- The body of the dataset loop of check_cards for one listdir entry
(name, node) of a process directory: returns (checked increment,
error increment). A non-directory entry is skipped by the isdir test;
a missing or non-file <name>.json is the MISSING error; an unparseable
file is the JSON ERROR (counted as checked first); a parsed file is
scored by checkParsedCard. -/
def checkDatasetDir (mand opt : List String) (name : String) :
    FsNode → Nat × Nat
  | FsNode.file _ => (0, 0)
  | FsNode.dir children =>
    match List.lookup (name ++ ".json") children with
    | none => (0, 1)
    | some (FsNode.dir _) => (0, 1)
    | some (FsNode.file none) => (1, 1)
    | some (FsNode.file (some attrs)) => (1, (checkParsedCard mand opt attrs).1)

/-- The dataset loop of check_cards over the entries of one process
directory. -/
def checkDatasetList (mand opt : List String) :
    List (String × FsNode) → Nat × Nat
  | [] => (0, 0)
  | (name, nd) :: rest =>
    let r := checkDatasetDir mand opt name nd
    let s := checkDatasetList mand opt rest
    (r.1 + s.1, r.2 + s.2)

/-- The body of the process loop of check_cards for one listdir entry
of a generator directory: non-directories are skipped by isdir. -/
def checkProcessDir (mand opt : List String) : FsNode → Nat × Nat
  | FsNode.file _ => (0, 0)
  | FsNode.dir children => checkDatasetList mand opt children

/-- The process loop of check_cards over the entries of one generator
directory. -/
def checkProcessList (mand opt : List String) :
    List (String × FsNode) → Nat × Nat
  | [] => (0, 0)
  | (_, nd) :: rest =>
    let r := checkProcessDir mand opt nd
    let s := checkProcessList mand opt rest
    (r.1 + s.1, r.2 + s.2)

/-- The body of the generator loop of check_cards: an absent generator
directory is skipped by os.path.exists; a file in its place makes
os.listdir raise NotADirectoryError. -/
def checkGenEntry (mand opt : List String) :
    Option FsNode → Except String (Nat × Nat)
  | none => Except.ok (0, 0)
  | some (FsNode.file _) => Except.error "NotADirectoryError"
  | some (FsNode.dir procs) => Except.ok (checkProcessList mand opt procs)

/-- The generator loop of check_cards over the configured generator
names, looking each up among the children of cards_dir. -/
def checkGenerators (mand opt : List String) (root : List (String × FsNode)) :
    List String → Except String (Nat × Nat)
  | [] => Except.ok (0, 0)
  | g :: rest =>
    match checkGenEntry mand opt (List.lookup g root) with
    | Except.error e => Except.error e
    | Except.ok r =>
      match checkGenerators mand opt root rest with
      | Except.error e => Except.error e
      | Except.ok s => Except.ok (r.1 + s.1, r.2 + s.2)

/-- Outcome of check_cards: the two early schema returns (which yield
False without a summary) versus a completed walk with its (checked,
errors) counters. -/
inductive CheckRes where
  | schemaFail
  | done (checked : Nat) (errors : Nat)
deriving DecidableEq

/-- check_cards over the configuration and the children of cards_dir,
mirroring the source order: dataset_schema presence, its two sub-keys,
the cards_dir lookup, the generators lookup, then the walk. -/
def check_cards (c : Config) (root : List (String × FsNode)) :
    Except String CheckRes :=
  match c.dataset_schema with
  | none => Except.ok CheckRes.schemaFail
  | some schema =>
    match schema.mandatory_attributes, schema.optional_attributes with
    | some mand, some opt =>
      match getPath c "cards_dir" with
      | Except.error e => Except.error e
      | Except.ok _ =>
        match c.generators with
        | none => Except.error "KeyError: generators"
        | some gens =>
          match checkGenerators mand opt root (gens.map Prod.fst) with
          | Except.error e => Except.error e
          | Except.ok r => Except.ok (CheckRes.done r.1 r.2)
    | _, _ => Except.ok CheckRes.schemaFail

/-- The boolean check_cards returns. -/
def checkResultBool : CheckRes → Bool
  | CheckRes.schemaFail => false
  | CheckRes.done _ e => (e == 0)

/-- main: sys.exit(0 if validate_config(config) else 1). -/
def exitValidate (c : Config) : Nat :=
  if validate_config_ok c then 0 else 1

/-- main: sys.exit(0 if check_cards(config) else 1), with a crash of
check_cards propagated. -/
def exitCheck (c : Config) (root : List (String × FsNode)) :
    Except String Nat :=
  match check_cards c root with
  | Except.error e => Except.error e
  | Except.ok r => Except.ok (if checkResultBool r then 0 else 1)

/-- A generator entry for concrete evaluations: one skeleton file. -/
def ginfoW : GenInfo :=
  { description := some "MadGraph5 LO generator"
    skeleton_files := some ["skeleton_cfg.dat"] }

/-- The generators section for concrete evaluations. -/
def gensW : List (String × GenInfo) := [("mg", ginfoW)]

/-- A complete well-formed configuration for concrete evaluations. -/
def cfgW : Config :=
  { paths := some [("cards_dir", "cards"), ("campaigns_dir", "camps"),
      ("fragments_dir", "frags"), ("skeletons_dir", "skeletons"),
      ("eos_base_path", "eos")]
    generators := some gensW
    campaigns := some [("run3", { tune := some "T1", beam := some "6800" })]
    physics_processes := some ["tt"]
    tunes := some [("T1", "imports.T1")]
    parton_showers := some [("py8", "Pythia8")]
    dataset_schema := some
      { mandatory_attributes := some ["a", "b"]
        optional_attributes := some ["c"] } }

/-- A filesystem holding the skeleton directory and file of cfgW. -/
def fsW : FS :=
  { dirs := ["skeletons/mg"]
    files := [("skeletons/mg/skeleton_cfg.dat", "process $process end")] }

lemma requiredKeyErrors_ne_nil (c : Config) :
    requiredKeyErrors c ≠ [] ↔
      (c.paths = none ∨ c.generators = none ∨ c.campaigns = none ∨
       c.tunes = none ∨ c.parton_showers = none) := by
  rcases hp : c.paths <;> rcases hg : c.generators <;> rcases hc : c.campaigns <;>
    rcases ht : c.tunes <;> rcases hs : c.parton_showers <;>
    simp [requiredKeyErrors, hp, hg, hc, ht, hs]

lemma pathErrors_ne_nil (c : Config) :
    pathErrors c ≠ [] ↔
      (∃ ps, c.paths = some ps ∧ ∃ k ∈ requiredPathKeys, List.lookup k ps = none) := by
  rcases hp : c.paths with _ | ps
  · simp [pathErrors, hp]
  · constructor
    · intro h
      refine ⟨ps, rfl, ?_⟩
      by_contra hcon
      push_neg at hcon
      apply h
      simp only [pathErrors, hp, List.map_eq_nil_iff, List.filter_eq_nil_iff]
      intro k hk
      simp [Option.isNone_iff_eq_none, hcon k hk]
    · rintro ⟨ps', hps', k, hk, hke⟩
      injection hps' with hps'
      subst hps'
      intro hnil
      simp only [pathErrors, hp, List.map_eq_nil_iff, List.filter_eq_nil_iff] at hnil
      have := hnil k hk
      simp [Option.isNone_iff_eq_none, hke] at this

lemma schemaErrors_ne_nil (c : Config) :
    schemaErrors c ≠ [] ↔
      (c.dataset_schema = none ∨
       ∃ s, c.dataset_schema = some s ∧
         (s.mandatory_attributes = none ∨ s.optional_attributes = none)) := by
  rcases hd : c.dataset_schema with _ | s
  · simp [schemaErrors, hd]
  · rcases hm : s.mandatory_attributes <;> rcases ho : s.optional_attributes <;>
      simp [schemaErrors, hd, hm, ho]

/-- C3: validate_config reports an error exactly when a required
top-level section is absent, a required path key is absent from a
present paths section, or dataset_schema or one of its two attribute
sub-keys is absent. -/
theorem claim_C3 (c : Config) :
    (validate_config c).1 ≠ [] ↔
      (c.paths = none ∨ c.generators = none ∨ c.campaigns = none ∨
       c.tunes = none ∨ c.parton_showers = none ∨
       (∃ ps, c.paths = some ps ∧ ∃ k ∈ requiredPathKeys, List.lookup k ps = none) ∨
       c.dataset_schema = none ∨
       (∃ s, c.dataset_schema = some s ∧
         (s.mandatory_attributes = none ∨ s.optional_attributes = none))) := by
  have hsplit : (validate_config c).1 ≠ [] ↔
      (requiredKeyErrors c ≠ [] ∨ pathErrors c ≠ [] ∨ schemaErrors c ≠ []) := by
    simp only [validate_config, Ne, List.append_eq_nil, not_and_or]
    tauto
  rw [hsplit, requiredKeyErrors_ne_nil, pathErrors_ne_nil, schemaErrors_ne_nil]
  simp [or_assoc]

/-- C8: load_config either returns the fully parsed mapping (exactly
when the file exists and parses) or terminates with an error, both
when the file is absent and when it is not valid JSON; there is no
partial success. -/
theorem claim_C8 (d : Option (Option Config)) :
    (∃ c, load_config d = Except.ok c ∧ d = some (some c)) ∨
    (∃ msg, load_config d = Except.error msg ∧ (d = none ∨ d = some none)) := by
  rcases d with _ | (_ | c) <;> simp [load_config]

/-- C1: for a dataset directory whose card file parses to the key set
attrs, the error increment of check_cards is 1 exactly when
missing = mandatory − attrs is non-empty, and a non-empty unknown set
with an empty missing set contributes no error (warning only). -/
theorem claim_C1 (mand opt attrs : List String) (name : String)
    (children : List (String × FsNode))
    (h : List.lookup (name ++ ".json") children = some (FsNode.file (some attrs))) :
    (checkDatasetDir mand opt name (FsNode.dir children)).2 =
      (if mand.filter (fun k => !(attrs.contains k)) = [] then 0 else 1) ∧
    ((mand.filter (fun k => !(attrs.contains k)) = [] ∧
      attrs.filter (fun k => !(mand.contains k) && !(opt.contains k)) ≠ []) →
      (checkDatasetDir mand opt name (FsNode.dir children)).2 = 0) := by
  have he : checkDatasetDir mand opt name (FsNode.dir children) =
      (1, (checkParsedCard mand opt attrs).1) := by
    simp [checkDatasetDir, h]
  constructor
  · rw [he]
    simp only [checkParsedCard]
    rcases hm : mand.filter (fun k => !(attrs.contains k)) with _ | ⟨x, xs⟩
    · simp
    · simp
  · rintro ⟨hmiss, _⟩
    rw [he]
    simp only [checkParsedCard]
    rw [hmiss]
    simp

/-- C10: the checked counter counts a dataset exactly when its
<dataset>.json exists as a file (whether or not it parses); a dataset
whose card file is missing or is not a file adds one error and is
excluded from the checked count. -/
theorem claim_C10 (mand opt : List String) (name : String)
    (children : List (String × FsNode)) :
    ((∃ p, List.lookup (name ++ ".json") children = some (FsNode.file p)) →
      (checkDatasetDir mand opt name (FsNode.dir children)).1 = 1) ∧
    (List.lookup (name ++ ".json") children = none →
      checkDatasetDir mand opt name (FsNode.dir children) = (0, 1)) ∧
    (∀ ds, List.lookup (name ++ ".json") children = some (FsNode.dir ds) →
      checkDatasetDir mand opt name (FsNode.dir children) = (0, 1)) := by
  refine ⟨?_, ?_, ?_⟩
  · rintro ⟨p, hp⟩
    rcases p with _ | attrs <;> simp [checkDatasetDir, hp]
  · intro h
    simp [checkDatasetDir, h]
  · intro ds h
    simp [checkDatasetDir, h]

/-- C9: check_cards silently skips a configured generator whose
directory is absent under cards_dir (no checked or error increment),
counts one MISSING error for a dataset directory lacking its
<dataset>.json file, processes a concatenation of dataset entries as
the sum of its parts (so an individual card error never stops the
remaining datasets), and a completed walk succeeds exactly when the
accumulated error count is zero. -/
theorem claim_C9 (c : Config) (root : List (String × FsNode))
    (mand opt : List String) (name : String)
    (children : List (String × FsNode)) (ch e : Nat) :
    checkGenEntry mand opt none = Except.ok (0, 0) ∧
    (List.lookup (name ++ ".json") children = none →
      checkDatasetDir mand opt name (FsNode.dir children) = (0, 1)) ∧
    (∀ l₁ l₂ : List (String × FsNode),
      checkDatasetList mand opt (l₁ ++ l₂) =
        ((checkDatasetList mand opt l₁).1 + (checkDatasetList mand opt l₂).1,
         (checkDatasetList mand opt l₁).2 + (checkDatasetList mand opt l₂).2)) ∧
    (check_cards c root = Except.ok (CheckRes.done ch e) →
      (checkResultBool (CheckRes.done ch e) = true ↔ e = 0)) := by
  refine ⟨rfl, ?_, ?_, ?_⟩
  · intro h
    simp [checkDatasetDir, h]
  · intro l₁ l₂
    induction l₁ with
    | nil => simp [checkDatasetList]
    | cons hd tl ih =>
      rcases hd with ⟨n, nd⟩
      simp only [List.cons_append, checkDatasetList, List.append_eq, ih, Prod.mk.injEq]
      constructor <;> omega
  · intro _
    simp [checkResultBool]

/-- C2: validate-config exits 0 exactly when its error list is empty,
that exit code is a function of the error list alone (warnings never
affect it), and check-cards exits 0 exactly when its accumulated error
count is zero, the early schema failure exiting 1. -/
theorem claim_C2 (c : Config) (root : List (String × FsNode)) (ch e : Nat) :
    (exitValidate c = 0 ↔ (validate_config c).1 = []) ∧
    (∀ c' : Config, (validate_config c').1 = (validate_config c).1 →
      exitValidate c' = exitValidate c) ∧
    (check_cards c root = Except.ok (CheckRes.done ch e) →
      (exitCheck c root = Except.ok 0 ↔ e = 0)) ∧
    (check_cards c root = Except.ok CheckRes.schemaFail →
      exitCheck c root = Except.ok 1) := by
  refine ⟨?_, ?_, ?_, ?_⟩
  · rcases hv : (validate_config c).1 with _ | ⟨x, xs⟩ <;>
      simp [exitValidate, validate_config_ok, hv]
  · intro c' hW
    simp [exitValidate, validate_config_ok, hW]
  · intro h
    by_cases he : e = 0 <;> simp [exitCheck, h, checkResultBool, he]
  · intro h
    simp [exitCheck, h, checkResultBool]

lemma mdFold_fst_false (l : List String) :
    ∀ st : FS × List String, (l.foldl (mdStep false) st).1 = st.1 := by
  induction l with
  | nil => intro st; rfl
  | cons p tl ih =>
    intro st
    rw [List.foldl_cons, ih]
    unfold mdStep
    split <;> rfl

/-- C7: in dry-run mode (the perform flag unset) make_dirs and
make_cards return the filesystem unchanged on every input, whatever
else they report. -/
theorem claim_C7 (c : Config) (fs : FS) (generator process dataset : String) :
    (make_dirs c fs false).1 = fs ∧
    (make_cards c fs generator process dataset false).1 = fs := by
  constructor
  · unfold make_dirs
    split
    · exact mdFold_fst_false _ _
    · rfl
    · rfl
    · rfl
    · rfl
  · unfold make_cards
    split
    · rfl
    · split
      · rfl
      · split
        · rfl
        · split
          · rfl
          · dsimp only
            split
            · rfl
            · split
              · rfl
              · rfl

lemma fsExists_fsMkdir_self (fs : FS) (p : String) :
    fsExists (fsMkdir fs p) p = true := by
  simp [fsExists, fsMkdir]

lemma fsExists_fsMkdir_of (fs : FS) (p q : String) (h : fsExists fs q = true) :
    fsExists (fsMkdir fs p) q = true := by
  simp only [fsExists, fsMkdir, Bool.or_eq_true, List.contains_cons] at h ⊢
  tauto

lemma mdStep_exists (doit : Bool) (st : FS × List String) (p q : String)
    (h : fsExists st.1 q = true) : fsExists (mdStep doit st p).1 q = true := by
  unfold mdStep
  split
  · exact h
  · cases doit
    · simpa using h
    · simpa using fsExists_fsMkdir_of _ _ _ h

lemma mdFold_exists_preserved (doit : Bool) (l : List String) :
    ∀ st : FS × List String, ∀ q, fsExists st.1 q = true →
      fsExists ((l.foldl (mdStep doit) st).1) q = true := by
  induction l with
  | nil => intro st q h; exact h
  | cons p tl ih =>
    intro st q h
    rw [List.foldl_cons]
    exact ih _ _ (mdStep_exists _ _ _ _ h)

lemma mdFold_all_exist (l : List String) :
    ∀ st : FS × List String, ∀ p ∈ l, fsExists ((l.foldl (mdStep true) st).1) p = true := by
  induction l with
  | nil =>
    intro st p hp
    cases hp
  | cons q tl ih =>
    intro st p hp
    rw [List.foldl_cons]
    rcases List.mem_cons.mp hp with rfl | hmem
    · apply mdFold_exists_preserved
      unfold mdStep
      split
      · next hex => exact hex
      · simpa using fsExists_fsMkdir_self st.1 p
    · exact ih _ _ hmem

lemma mdStep_of_exists (doit : Bool) (st : FS × List String) (p : String)
    (h : fsExists st.1 p = true) : mdStep doit st p = st := by
  unfold mdStep
  simp [h]

lemma mdFold_id (doit : Bool) (l : List String) :
    ∀ st : FS × List String, (∀ p ∈ l, fsExists st.1 p = true) →
      l.foldl (mdStep doit) st = st := by
  induction l with
  | nil => intro st _; rfl
  | cons q tl ih =>
    intro st h
    rw [List.foldl_cons, mdStep_of_exists _ _ _ (h q (List.mem_cons_self q tl))]
    exact ih st (fun p hp => h p (List.mem_cons_of_mem _ hp))

lemma mdFold_skip (doit : Bool) (l : List String) :
    ∀ st : FS × List String, ∀ p, fsExists st.1 p = true → p ∉ st.2 →
      p ∉ (l.foldl (mdStep doit) st).2 := by
  induction l with
  | nil => intro st p _ hn; exact hn
  | cons q tl ih =>
    intro st p h hn
    rw [List.foldl_cons]
    apply ih
    · exact mdStep_exists _ _ _ _ h
    · unfold mdStep
      split
      · exact hn
      · next hq =>
          intro hmem
          rcases List.mem_append.mp hmem with hm | hm
          · exact hn hm
          · rw [List.mem_singleton] at hm
            subst hm
            exact hq h

/-- C6: make_dirs is idempotent: after a successful perform run over
the campaign x generator x process targets, a second perform run from
the resulting filesystem creates nothing, leaves the filesystem
unchanged, and its empty created list makes the report line read
"All directories already exist."; paths that already existed before
the first run are never in its created list. -/
theorem claim_C6 (c : Config) (fs fs₁ : FS) (created₁ : List String)
    (h : make_dirs c fs true = (fs₁, Except.ok created₁)) :
    make_dirs c fs₁ true = (fs₁, Except.ok []) ∧
    mdReport [] true = ["All directories already exist."] ∧
    (∀ p, fsExists fs p = true → p ∉ created₁) := by
  unfold make_dirs at h ⊢
  split at h
  case _ base gens camps procs hbase hgens hcamps hprocs =>
    simp only [Prod.mk.injEq, Except.ok.injEq] at h
    obtain ⟨h1, h2⟩ := h
    have hall : ∀ p ∈ mdTargets base (camps.map Prod.fst) (gens.map Prod.fst) procs,
        fsExists fs₁ p = true := by
      intro p hp
      rw [← h1]
      exact mdFold_all_exist _ (fs, []) p hp
    refine ⟨?_, rfl, ?_⟩
    · have hid := mdFold_id true
        (mdTargets base (camps.map Prod.fst) (gens.map Prod.fst) procs)
        (fs₁, []) (fun p hp => hall p hp)
      simp only [hid]
    · intro p hex
      rw [← h2]
      exact mdFold_skip true _ (fs, []) p hex (List.not_mem_nil p)
  all_goals simp at h

lemma mcWrites_dirs (sp tp d : String) :
    ∀ (l : List String) (fs : FS), ((mcWrites sp tp d l fs).1).dirs = fs.dirs := by
  intro l
  induction l with
  | nil => intro fs; rfl
  | cons sf tl ih =>
    intro fs
    unfold mcWrites
    split
    · rfl
    · exact ih _

lemma fsRead_fsWrite_self (fs : FS) (p v : String) :
    fsRead (fsWrite fs p v) p = some v := by
  simp [fsRead, fsWrite, List.lookup]

lemma fsRead_fsWrite_ne (fs : FS) (p q v : String) (h : p ≠ q) :
    fsRead (fsWrite fs q v) p = fsRead fs p := by
  have hb : (p == q) = false := beq_eq_false_iff_ne.mpr h
  simp [fsRead, fsWrite, List.lookup, hb]

lemma mcWrites_spec (sp tp d : String) (ct : String → String) :
    ∀ (l : List String) (fs : FS),
      (∀ sf ∈ l, fsRead fs (pjoin sp sf) = some (ct sf)) →
      (l.map (fun sf => pjoin tp (dstName sf d))).Nodup →
      (∀ sf ∈ l, ∀ sf' ∈ l, pjoin tp (dstName sf' d) ≠ pjoin sp sf) →
      ∃ fs', mcWrites sp tp d l fs = (fs', Except.ok ()) ∧
        (∀ sf ∈ l, fsRead fs' (pjoin tp (dstName sf d)) =
          some (pyReplace (ct sf) "$process" d)) ∧
        (∀ p, (∀ sf ∈ l, p ≠ pjoin tp (dstName sf d)) → fsRead fs' p = fsRead fs p) := by
  intro l
  induction l with
  | nil =>
    intro fs _ _ _
    exact ⟨fs, rfl, by simp, fun p _ => rfl⟩
  | cons sf tl ih =>
    intro fs hread hnodup hdisj
    have hsrc : fsRead fs (pjoin sp sf) = some (ct sf) :=
      hread sf (List.mem_cons_self sf tl)
    rw [List.map_cons, List.nodup_cons] at hnodup
    obtain ⟨hhd, htl⟩ := hnodup
    have hread1 : ∀ s ∈ tl,
        fsRead (fsWrite fs (pjoin tp (dstName sf d)) (pyReplace (ct sf) "$process" d))
          (pjoin sp s) = some (ct s) := by
      intro s hs
      rw [fsRead_fsWrite_ne]
      · exact hread s (List.mem_cons_of_mem _ hs)
      · exact Ne.symm (hdisj s (List.mem_cons_of_mem _ hs) sf (List.mem_cons_self sf tl))
    have hdisj1 : ∀ s ∈ tl, ∀ s' ∈ tl, pjoin tp (dstName s' d) ≠ pjoin sp s :=
      fun s hs s' hs' =>
        hdisj s (List.mem_cons_of_mem _ hs) s' (List.mem_cons_of_mem _ hs')
    obtain ⟨fs', hrun, hvals, hframe⟩ := ih _ hread1 htl hdisj1
    have hne_tl : ∀ s ∈ tl, pjoin tp (dstName sf d) ≠ pjoin tp (dstName s d) := by
      intro s hs hEq
      exact hhd (hEq ▸ List.mem_map_of_mem _ hs)
    refine ⟨fs', ?_, ?_, ?_⟩
    · unfold mcWrites
      rw [hsrc]
      exact hrun
    · intro s hs
      rcases List.mem_cons.mp hs with rfl | hs'
      · rw [hframe _ (hne_tl)]
        exact fsRead_fsWrite_self _ _ _
      · exact hvals s hs'
    · intro p hp
      rw [hframe p (fun s hs => hp s (List.mem_cons_of_mem _ hs))]
      exact fsRead_fsWrite_ne _ _ _ _ (hp sf (List.mem_cons_self sf tl))

/-- C5: make_cards terminates fatally, returning the filesystem it was
given unchanged, when the generator is unknown, when the target
dataset directory already exists, or when the skeleton source
directory does not exist; and a re-run after a successful perform run
fails with the already-exists error, leaving the produced filesystem
unchanged. -/
theorem claim_C5 (c : Config) (fs : FS) (generator process dataset : String)
    (doit : Bool) (gens : List (String × GenInfo))
    (hg : c.generators = some gens) :
    (List.lookup generator gens = none →
      make_cards c fs generator process dataset doit =
        (fs, Except.error ("ERROR: Unknown generator: " ++ generator))) ∧
    (∀ ginfo cards skel,
      List.lookup generator gens = some ginfo →
      getPath c "cards_dir" = Except.ok cards →
      getPath c "skeletons_dir" = Except.ok skel →
      (fsExists fs (pjoin (pjoin (pjoin cards generator) process) dataset) = true →
        make_cards c fs generator process dataset doit =
          (fs, Except.error ("ERROR: Path already exists: " ++
            pjoin (pjoin (pjoin cards generator) process) dataset))) ∧
      (fsExists fs (pjoin (pjoin (pjoin cards generator) process) dataset) = false →
       fsExists fs (pjoin skel generator) = false →
        make_cards c fs generator process dataset doit =
          (fs, Except.error ("ERROR: Skeleton path not found: " ++
            pjoin skel generator)))) ∧
    (∀ fs' plan cards,
      make_cards c fs generator process dataset true = (fs', Except.ok plan) →
      getPath c "cards_dir" = Except.ok cards →
      make_cards c fs' generator process dataset doit =
        (fs', Except.error ("ERROR: Path already exists: " ++
          pjoin (pjoin (pjoin cards generator) process) dataset))) := by
  refine ⟨?_, ?_, ?_⟩
  · intro h
    simp [make_cards, hg, h]
  · intro ginfo cards skel hl hc hs
    constructor
    · intro hex
      simp [make_cards, hg, hl, hc, hs, hex]
    · intro hex1 hex2
      simp [make_cards, hg, hl, hc, hs, hex1, hex2]
  · intro fs' plan cards h hcards
    simp only [make_cards, hg] at h
    split at h
    · simp at h
    · next ginfo hl =>
      split at h
      · simp at h
      · next cards' hc =>
        split at h
        · simp at h
        · next skel hs =>
          have hcc : cards' = cards := by
            rw [hc] at hcards
            exact (Except.ok.inj hcards)
          subst hcc
          split at h
          · simp at h
          · next hex =>
            split at h
            · simp at h
            · next hskel =>
              simp only [if_true] at h
              split at h
              · next fs2 val heqm =>
                simp only [Prod.mk.injEq, Except.ok.injEq] at h
                obtain ⟨hfs2, _⟩ := h
                have hdirs : fs'.dirs =
                    (pjoin (pjoin (pjoin cards' generator) process) dataset) :: fs.dirs := by
                  rw [← hfs2]
                  have := mcWrites_dirs (pjoin skel generator)
                    (pjoin (pjoin (pjoin cards' generator) process) dataset) dataset
                    (ginfo.skeleton_files.getD [])
                    (fsMkdir fs (pjoin (pjoin (pjoin cards' generator) process) dataset))
                  rw [heqm] at this
                  exact this
                have hex' : fsExists fs'
                    (pjoin (pjoin (pjoin cards' generator) process) dataset) = true := by
                  simp [fsExists, hdirs]
                simp [make_cards, hg, hl, hc, hs, hex']
              · next fs2 e heqm =>
                simp at h

/-- C4: a perform-mode make_cards run over the skeleton filenames of a
known generator produces, for every listed skeleton filename, exactly
one destination file: its name is the skeleton filename with the
substring "skeleton" replaced by the dataset name, its content is the
source content with every occurrence of "$process" replaced by the
dataset name, and the reported plan pairs each source with its
destination name. -/
theorem claim_C4 (c : Config) (fs : FS) (generator process dataset : String)
    (gens : List (String × GenInfo)) (ginfo : GenInfo) (sfs : List String)
    (cards skel : String) (ct : String → String)
    (hg : c.generators = some gens)
    (hl : List.lookup generator gens = some ginfo)
    (hsf : ginfo.skeleton_files = some sfs)
    (hc : getPath c "cards_dir" = Except.ok cards)
    (hs : getPath c "skeletons_dir" = Except.ok skel)
    (hne : fsExists fs (pjoin (pjoin (pjoin cards generator) process) dataset) = false)
    (hse : fsExists fs (pjoin skel generator) = true)
    (hread : ∀ sf ∈ sfs, fsRead fs (pjoin (pjoin skel generator) sf) = some (ct sf))
    (hnodup : (sfs.map (fun sf =>
      pjoin (pjoin (pjoin (pjoin cards generator) process) dataset)
        (dstName sf dataset))).Nodup)
    (hdisj : ∀ sf ∈ sfs, ∀ sf' ∈ sfs,
      pjoin (pjoin (pjoin (pjoin cards generator) process) dataset)
          (dstName sf' dataset) ≠ pjoin (pjoin skel generator) sf) :
    ∃ fs', make_cards c fs generator process dataset true =
        (fs', Except.ok (sfs.map (fun sf => (sf, dstName sf dataset)))) ∧
      ∀ sf ∈ sfs,
        fsRead fs' (pjoin (pjoin (pjoin (pjoin cards generator) process) dataset)
          (dstName sf dataset)) = some (pyReplace (ct sf) "$process" dataset) := by
  have hread0 : ∀ sf ∈ sfs,
      fsRead (fsMkdir fs (pjoin (pjoin (pjoin cards generator) process) dataset))
        (pjoin (pjoin skel generator) sf) = some (ct sf) := hread
  obtain ⟨fs', hrun, hvals, _⟩ := mcWrites_spec (pjoin skel generator)
    (pjoin (pjoin (pjoin cards generator) process) dataset) dataset ct sfs
    (fsMkdir fs (pjoin (pjoin (pjoin cards generator) process) dataset))
    hread0 hnodup hdisj
  refine ⟨fs', ?_, hvals⟩
  simp only [make_cards, hg, hl, hc, hs, hne, hse, hsf, Option.getD_some,
    Bool.not_true, Bool.false_eq_true, if_false, if_true]
  rw [hrun]

/-- Witness for C1: the card with keys a, b, x against mandatory a, b
and optional c has no missing keys, an unknown key x, and contributes
zero errors. -/
theorem claim_C1_witness :
    (checkDatasetDir ["a", "b"] ["c"] "ds"
      (FsNode.dir [("ds.json", FsNode.file (some ["a", "b", "x"]))])).2 = 0 := by
  have h := claim_C1 ["a", "b"] ["c"] ["a", "b", "x"] "ds"
    [("ds.json", FsNode.file (some ["a", "b", "x"]))] rfl
  exact h.2 ⟨by decide, by decide⟩

/-- Witness for C2: on the well-formed sample configuration both
actions exit 0. -/
theorem claim_C2_witness :
    exitValidate cfgW = 0 ∧ exitCheck cfgW [] = Except.ok 0 := by
  have h := claim_C2 cfgW [] 0 0
  exact ⟨h.1.mpr rfl, (h.2.2.1 rfl).mpr rfl⟩

/-- Witness for C9: a dataset directory with no card file scores one
MISSING error and zero checked, and a zero-error walk succeeds. -/
theorem claim_C9_witness :
    checkDatasetDir ["a", "b"] ["c"] "ds" (FsNode.dir []) = (0, 1) ∧
    checkResultBool (CheckRes.done 0 0) = true := by
  have h := claim_C9 cfgW [] ["a", "b"] ["c"] "ds" [] 0 0
  exact ⟨h.2.1 rfl, (h.2.2.2 rfl).mpr rfl⟩

/-- Witness for C10: an unparseable card file is counted as checked,
while a dataset directory without its card file is not. -/
theorem claim_C10_witness :
    (checkDatasetDir ["a", "b"] ["c"] "ds"
      (FsNode.dir [("ds.json", FsNode.file none)])).1 = 1 ∧
    checkDatasetDir ["a", "b"] ["c"] "empty" (FsNode.dir []) = (0, 1) := by
  have h1 := claim_C10 ["a", "b"] ["c"] "ds" [("ds.json", FsNode.file none)]
  have h2 := claim_C10 ["a", "b"] ["c"] "empty" ([] : List (String × FsNode))
  exact ⟨h1.1 ⟨none, rfl⟩, h2.2.1 rfl⟩

/-- Witness for C5: an unknown generator name fails fatally with the
unknown-generator message and an unchanged filesystem. -/
theorem claim_C5_witness :
    make_cards cfgW fsW "nope" "tt" "dset" false =
      (fsW, Except.error ("ERROR: Unknown generator: " ++ "nope")) :=
  (claim_C5 cfgW fsW "nope" "tt" "dset" false gensW rfl).1 rfl

/-- Witness for C6: after the single EOS target of cfgW has been
created, a second perform run changes nothing and reports that all
directories exist. -/
theorem claim_C6_witness :
    make_dirs cfgW { dirs := ["eos/run3/mg/tt"], files := [] } true =
      ({ dirs := ["eos/run3/mg/tt"], files := [] }, Except.ok []) ∧
    mdReport [] true = ["All directories already exist."] ∧
    (∀ p, fsExists { dirs := [], files := [] } p = true →
      p ∉ ["eos/run3/mg/tt"]) :=
  claim_C6 cfgW { dirs := [], files := [] }
    { dirs := ["eos/run3/mg/tt"], files := [] } ["eos/run3/mg/tt"] rfl

/-- Witness for C4: materialising skeleton_cfg.dat for dataset
ttbar_2023 writes ttbar_2023_cfg.dat with the placeholder replaced. -/
theorem claim_C4_witness :
    ∃ fs', make_cards cfgW fsW "mg" "tt" "ttbar_2023" true =
        (fs', Except.ok ((["skeleton_cfg.dat"] : List String).map
          (fun sf => (sf, dstName sf "ttbar_2023")))) ∧
      ∀ sf ∈ (["skeleton_cfg.dat"] : List String),
        fsRead fs' (pjoin (pjoin (pjoin (pjoin "cards" "mg") "tt") "ttbar_2023")
          (dstName sf "ttbar_2023")) =
          some (pyReplace ((fun _ => "process $process end") sf) "$process" "ttbar_2023") :=
  claim_C4 cfgW fsW "mg" "tt" "ttbar_2023" gensW ginfoW ["skeleton_cfg.dat"]
    "cards" "skeletons" (fun _ => "process $process end") rfl rfl rfl rfl rfl rfl rfl
    (by decide) (by decide) (by decide)

end Gridpack
